import Mathlib

/-!
Shallow embedding of the pub/sub messaging core of `src/mcp_agent/mcp/pubsub.py`
(classes `PubSubChannel`, `RedisPubSubChannel`, `PubSubManager`), together with
theorems settling the specification claims about it.

Modelling conventions:
* Python values that can travel through a channel are modelled by `PyVal`.
  Python `float` payloads are not modelled (floating point is outside the
  embedding); no claim exercises them.
* Subscriber callbacks are modelled by identifiers (`SubId`) plus an
  environment `SubEnv` that says, per callback and message, whether the
  callback raises.  Invoking a callback is `callSubscriber` /
  `callAsyncSubscriber`, returning `Except` — the `try/except` blocks of the
  source are the `match`es on those results.
* Effects of a `publish` call (history assignment, each subscriber
  invocation, the broker send) are recorded in order in a `List Event`, so
  ordering claims ("history before fan-out", "local fan-out before broker
  send") are statements about that list.
* The broker (`redis_client.publish`) is an environment
  `broker : String → String → Bool` giving per-send success; a `false`
  result stands for the send raising, which the source catches.
* Object identity of channels handled out by the registry is modelled with an
  allocation counter: `PubSubManager` stores channel ids (`Nat`) freshly
  numbered by `nextId`, with the channel objects in `store`.
-/

/-- Identifier standing for a Python callback object. -/
abbrev SubId := Nat

/-- Python values that the pub/sub layer can carry.  `pyObj s d` is an
arbitrary Python object whose `str()` is `s` and whose `to_dict()` method, when
present, returns `d`.  (`float` payloads are not modelled.) -/
inductive PyVal where
  | pyNone : PyVal
  | pyBool (b : Bool) : PyVal
  | pyInt (i : Int) : PyVal
  | pyStr (s : String) : PyVal
  | pyList (items : List PyVal) : PyVal
  | pyDict (entries : List (String × PyVal)) : PyVal
  | pyObj (str : String) (toDict : Option PyVal) : PyVal

/-- One hexadecimal digit, lower case (as Python's `json` emits them). -/
def hexDigit (n : Nat) : Char :=
  if n < 10 then Char.ofNat (48 + n) else Char.ofNat (87 + n)

/-- Four-digit hexadecimal rendering used in `\uXXXX` escapes. -/
def hex4 (n : Nat) : String :=
  String.mk [hexDigit (n / 4096 % 16), hexDigit (n / 256 % 16),
             hexDigit (n / 16 % 16), hexDigit (n % 16)]

/-- Escaping of one character as Python's `json.dumps` does with its default
`ensure_ascii=True` (non-printable and non-ASCII become `\uXXXX`, astral
characters become surrogate pairs). -/
def jsonEscapeChar (c : Char) : String :=
  if c = '"' then "\\\""
  else if c = '\\' then "\\\\"
  else if c = '\n' then "\\n"
  else if c = '\t' then "\\t"
  else if c = '\r' then "\\r"
  else if c = Char.ofNat 8 then "\\b"
  else if c = Char.ofNat 12 then "\\f"
  else if c.toNat < 32 || c.toNat > 126 then
    if c.toNat ≥ 65536 then
      let v := c.toNat - 65536
      "\\u" ++ hex4 (55296 + v / 1024) ++ "\\u" ++ hex4 (56320 + v % 1024)
    else "\\u" ++ hex4 c.toNat
  else String.mk [c]

/-- Body of a JSON string literal. -/
def jsonEscapeString (s : String) : String :=
  s.data.foldl (fun acc c => acc ++ jsonEscapeChar c) ""

/-- A JSON string literal: `json.dumps` applied to a Python `str`. -/
def jsonQuote (s : String) : String :=
  "\"" ++ jsonEscapeString s ++ "\""

/-- `", ".join pieces` — Python's default item separator in `json.dumps`. -/
def joinComma (pieces : List String) : String :=
  String.intercalate ", " pieces

mutual

/-- `json.dumps` with default options on a `PyVal`.  An object (anything that
is not one of the JSON-serializable built-in types) makes it raise
`TypeError`, modelled by `.error`. -/
def jsonDumps : PyVal → Except String String
  | .pyNone => .ok "null"
  | .pyBool true => .ok "true"
  | .pyBool false => .ok "false"
  | .pyInt i => .ok (toString i)
  | .pyStr s => .ok (jsonQuote s)
  | .pyList items => do
      let pieces ← jsonDumpsList items
      .ok ("[" ++ joinComma pieces ++ "]")
  | .pyDict entries => do
      let pieces ← jsonDumpsEntries entries
      .ok ("\x7b" ++ joinComma pieces ++ "\x7d")
  | .pyObj _ _ => .error "TypeError: Object is not JSON serializable"

/-- Serialization of the items of a JSON array. -/
def jsonDumpsList : List PyVal → Except String (List String)
  | [] => .ok []
  | v :: rest => do
      let s ← jsonDumps v
      let tail ← jsonDumpsList rest
      .ok (s :: tail)

/-- Serialization of the key/value pairs of a JSON object, with Python's
default `": "` key separator. -/
def jsonDumpsEntries : List (String × PyVal) → Except String (List String)
  | [] => .ok []
  | (k, v) :: rest => do
      let s ← jsonDumps v
      let tail ← jsonDumpsEntries rest
      .ok ((jsonQuote k ++ ": " ++ s) :: tail)

end

mutual

/-- Python `str()` of a value.  For containers this is their `repr`; the
quote-escaping subtleties of `repr` on strings are not modelled (the pub/sub
code only ever applies `str` to objects, whose rendering is stored in the
`pyObj` constructor). -/
def pyToStr : PyVal → String
  | .pyNone => "None"
  | .pyBool true => "True"
  | .pyBool false => "False"
  | .pyInt i => toString i
  | .pyStr s => s
  | .pyList items => "[" ++ joinComma (pyReprList items) ++ "]"
  | .pyDict entries => "\x7b" ++ joinComma (pyReprEntries entries) ++ "\x7d"
  | .pyObj s _ => s

/-- `repr` of a value (used inside container renderings). -/
def pyRepr : PyVal → String
  | .pyStr s => "'" ++ s ++ "'"
  | v => pyToStr v

/-- `repr` of each item of a list. -/
def pyReprList : List PyVal → List String
  | [] => []
  | v :: rest => pyRepr v :: pyReprList rest

/-- `repr` of each entry of a dict. -/
def pyReprEntries : List (String × PyVal) → List String
  | [] => []
  | (k, v) :: rest => ("'" ++ k ++ "': " ++ pyRepr v) :: pyReprEntries rest

end

/-- Behaviour environment for subscriber callbacks: which synchronous
(`raisesOn`) and asynchronous (`araisesOn`) callbacks raise on which
message. -/
structure SubEnv where
  raisesOn : SubId → PyVal → Bool
  araisesOn : SubId → PyVal → Bool

/-- Invoking a synchronous subscriber: raises (`.error`) exactly when the
environment says so. -/
def callSubscriber (env : SubEnv) (sid : SubId) (m : PyVal) : Except String Unit :=
  if env.raisesOn sid m then .error "exception in sync subscriber" else .ok ()

/-- Awaiting an asynchronous subscriber. -/
def callAsyncSubscriber (env : SubEnv) (sid : SubId) (m : PyVal) : Except String Unit :=
  if env.araisesOn sid m then .error "exception in async subscriber" else .ok ()

/-- Observable effects of a `publish` call, in program order. -/
inductive Event where
  | histSet (h : List PyVal) : Event
  | deliver (sub : SubId) (isAsync : Bool) (msg : PyVal) (raised : Bool) : Event
  | brokerSend (channel : String) (payload : String) (ok : Bool) : Event

/-- State of a channel.  The base class `PubSubChannel` and the subclass
`RedisPubSubChannel` are modelled by one structure: `isRedisChannel` is the
class tag, `hasRedisClient` is `redis_client is not None`, and
`redis_channel` is the derived broker topic (meaningful only on the
subclass). -/
structure PubSubChannel where
  channel_id : String
  subscribers : List SubId
  async_subscribers : List SubId
  history : List PyVal
  max_history_length : Nat
  isRedisChannel : Bool
  hasRedisClient : Bool
  redis_channel : String

/-- `PubSubChannel.__init__`: empty subscriber sets, empty history, history
bound hard-coded to 100. -/
def PubSubChannel.init (channel_id : String) : PubSubChannel :=
  { channel_id := channel_id
    subscribers := []
    async_subscribers := []
    history := []
    max_history_length := 100
    isRedisChannel := false
    hasRedisClient := false
    redis_channel := "" }

/-- Python `set.add`: inserts only when absent (the iteration order of the
model is insertion order; the source's set order is unspecified). -/
def setAdd (l : List SubId) (x : SubId) : List SubId :=
  if x ∈ l then l else l ++ [x]

/-- Python `set.discard`: removes if present, no error when absent. -/
def setDiscard (l : List SubId) (x : SubId) : List SubId :=
  l.filter (fun y => y != x)

/-- `PubSubChannel.subscribe`. -/
def PubSubChannel.subscribe (self : PubSubChannel) (callback : SubId) : PubSubChannel :=
  { self with subscribers := setAdd self.subscribers callback }

/-- `PubSubChannel.unsubscribe` (uses `discard`: absent callback is a no-op). -/
def PubSubChannel.unsubscribe (self : PubSubChannel) (callback : SubId) : PubSubChannel :=
  { self with subscribers := setDiscard self.subscribers callback }

/-- `PubSubChannel.subscribe_async`. -/
def PubSubChannel.subscribe_async (self : PubSubChannel) (callback : SubId) : PubSubChannel :=
  { self with async_subscribers := setAdd self.async_subscribers callback }

/-- `PubSubChannel.unsubscribe_async`. -/
def PubSubChannel.unsubscribe_async (self : PubSubChannel) (callback : SubId) : PubSubChannel :=
  { self with async_subscribers := setDiscard self.async_subscribers callback }

/-- Python slice `l[-n:]`.  Note the Python quirk that `l[-0:]` is the whole
list, not the empty one. -/
def pySliceLast {α : Type} (n : Nat) (l : List α) : List α :=
  if n = 0 then l else l.drop (l.length - n)

/-- Lines 90–92 of `pubsub.py`: `history.append(message)` followed by
`history = history[-max_history_length:]` when the bound is exceeded. -/
def appendBounded (history : List PyVal) (maxLen : Nat) (message : PyVal) : List PyVal :=
  if (history ++ [message]).length > maxLen then pySliceLast maxLen (history ++ [message])
  else history ++ [message]

/-- One iteration of the fan-out loop for a synchronous subscriber: the call
is wrapped in `try/except`, so a raise is recorded and swallowed. -/
def deliverSync (env : SubEnv) (m : PyVal) (sid : SubId) : Event :=
  match callSubscriber env sid m with
  | .ok _ => .deliver sid false m false
  | .error _ => .deliver sid false m true

/-- One iteration of the fan-out loop for an asynchronous subscriber. -/
def deliverAsync (env : SubEnv) (m : PyVal) (sid : SubId) : Event :=
  match callAsyncSubscriber env sid m with
  | .ok _ => .deliver sid true m false
  | .error _ => .deliver sid true m true

/-- `PubSubChannel.publish`: append to history (with eviction), then invoke
every synchronous subscriber, then await every asynchronous subscriber, each
invocation individually guarded by `try/except`.  The `Except` return type is
the possibility of the coroutine itself raising; every internal raise is
caught, so the result is always `.ok`. -/
def PubSubChannel.publish (self : PubSubChannel) (env : SubEnv) (message : PyVal) :
    Except String (PubSubChannel × List Event) :=
  let newHistory := appendBounded self.history self.max_history_length message
  let self' := { self with history := newHistory }
  .ok (self',
    Event.histSet newHistory ::
      (self.subscribers.map (deliverSync env message) ++
       self.async_subscribers.map (deliverAsync env message)))

/-- Lines 238–244 of `pubsub.py`: choose the wire form of a message.
Objects with `to_dict` are JSON-encoded through it; the JSON-serializable
built-in types are JSON-encoded directly; anything else is `str()`-ified. -/
def serializeMessage (message : PyVal) : Except String String :=
  match message with
  | .pyObj _ (some d) => jsonDumps d
  | .pyObj r none => .ok (pyToStr (.pyObj r none))
  | v => jsonDumps v

/-- `RedisPubSubChannel.publish`: local fan-out via the superclass first,
then — when a client is configured — serialize and send to the broker, the
whole broker block guarded by `try/except` (a serialization error or a failed
send is logged and swallowed, never retried). -/
def RedisPubSubChannel.publish (self : PubSubChannel) (env : SubEnv)
    (broker : String → String → Bool) (message : PyVal) :
    Except String (PubSubChannel × List Event) :=
  match PubSubChannel.publish self env message with
  | .error e => .error e
  | .ok (self', evs) =>
      if self.hasRedisClient then
        match serializeMessage message with
        | .ok message_data =>
            .ok (self', evs ++
              [Event.brokerSend self.redis_channel message_data
                (broker self.redis_channel message_data)])
        | .error _ => .ok (self', evs)
      else
        .ok (self', evs)

/-- Dynamic dispatch of `publish` on the channel's class. -/
def channelPublish (c : PubSubChannel) (env : SubEnv)
    (broker : String → String → Bool) (message : PyVal) :
    Except String (PubSubChannel × List Event) :=
  if c.isRedisChannel then RedisPubSubChannel.publish c env broker message
  else PubSubChannel.publish c env message

/-- The channel state after a `publish` (projection used to iterate
sequences of publishes; `publish` always returns `.ok`). -/
def publishChanOnly (c : PubSubChannel) (env : SubEnv) (message : PyVal) : PubSubChannel :=
  match PubSubChannel.publish c env message with
  | .ok (c', _) => c'
  | .error _ => c

/-- A sequence of `publish` calls on one channel. -/
def publishSeq (c : PubSubChannel) (env : SubEnv) (msgs : List PyVal) : PubSubChannel :=
  msgs.foldl (fun acc m => publishChanOnly acc env m) c

/-- `RedisPubSubChannel.__init__`: the broker topic is the configured
prefix concatenated with the channel id. -/
def RedisPubSubChannel.init (channel_id : String) (hasClient : Bool)
    (channelPfx : String) : PubSubChannel :=
  { PubSubChannel.init channel_id with
    isRedisChannel := true
    hasRedisClient := hasClient
    redis_channel := channelPfx ++ channel_id }

/-- Outcome of the readiness-wait phase of the background listener:
either the subscription reported ready at poll `check` (and the
message-consumption loop is entered), or the loop returned after the retry
budget, having slept `sleeps` times, without ever polling for messages. -/
inductive ListenerOutcome where
  | ready (check : Nat) : ListenerOutcome
  | gaveUp (sleeps : Nat) : ListenerOutcome
deriving DecidableEq

/-- The readiness-wait loop of `listener_loop` (lines 173–184 of
`pubsub.py`).  `subscribed check` is the value of
`getattr(self._pubsub, 'subscribed', False)` at the `check`-th evaluation of
the `while` condition; `rem` is `max_retries - retry_count`.  When the
condition is still false with the budget exhausted (`retry_count` would
exceed `max_retries`), the loop returns. -/
def readinessAux (subscribed : Nat → Bool) : Nat → Nat → ListenerOutcome
  | check, 0 => if subscribed check then .ready check else .gaveUp check
  | check, rem + 1 =>
      if subscribed check then .ready check
      else readinessAux subscribed (check + 1) rem

/-- The readiness phase of `listener_loop`, with the source's
`retry_count = 0`, `max_retries = 10`. -/
def listener_loop_readiness (subscribed : Nat → Bool) : ListenerOutcome :=
  readinessAux subscribed 0 10

/-- Association-list lookup (Python `dict` access). -/
def alookup {κ α : Type} [DecidableEq κ] : List (κ × α) → κ → Option α
  | [], _ => none
  | (k, v) :: rest, key => if k = key then some v else alookup rest key

/-- State of a `PubSubManager`.  `store`/`nextId` model object identity: each
channel ever constructed gets a fresh id, and `channels` maps topic names to
ids, so "same instance" is "same id". -/
structure PubSubManager where
  nextId : Nat
  store : List (Nat × PubSubChannel)
  channels : List (String × Nat)
  use_redis : Bool
  has_redis_client : Bool
  redis_channel_pfx : String

/-- `PubSubManager.__init__`.  `redisAvailable` is the module-level
`REDIS_AVAILABLE` flag; `clientInitFails` says whether constructing the
Redis client raises (import failure or bad parameters) — both `except`
branches disable Redis and leave the client unset.  The `Except` return type
is the possibility of `__init__` raising; every failure path is caught, so
the result is always `.ok`. -/
def PubSubManager.create (use_redis : Bool)
    (redis_config : Option (List (String × PyVal)))
    (redisAvailable : Bool) (clientInitFails : Bool) :
    Except String PubSubManager :=
  let ur := use_redis && redisAvailable
  let pfx :=
    match redis_config with
    | some cfg =>
        match alookup cfg "channel_prefix" with
        | some v => pyToStr v
        | none => "mcp_agent:"
    | none => "mcp_agent:"
  if ur then
    if clientInitFails then
      .ok { nextId := 0, store := [], channels := [],
            use_redis := false, has_redis_client := false,
            redis_channel_pfx := pfx }
    else
      .ok { nextId := 0, store := [], channels := [],
            use_redis := true, has_redis_client := true,
            redis_channel_pfx := pfx }
  else
    .ok { nextId := 0, store := [], channels := [],
          use_redis := false, has_redis_client := false,
          redis_channel_pfx := pfx }

/-- Total wrapper around `PubSubManager.create` (which always succeeds). -/
def PubSubManager.createOk (use_redis : Bool)
    (redis_config : Option (List (String × PyVal)))
    (redisAvailable : Bool) (clientInitFails : Bool) : PubSubManager :=
  match PubSubManager.create use_redis redis_config redisAvailable clientInitFails with
  | .ok m => m
  | .error _ =>
      { nextId := 0, store := [], channels := [],
        use_redis := false, has_redis_client := false,
        redis_channel_pfx := "mcp_agent:" }

/-- `PubSubManager.get_or_create_channel`: return the stored channel's id, or
construct a new channel (Redis-backed exactly when `use_redis` and a client
exist), store it under a fresh id, and return that id. -/
def PubSubManager.get_or_create_channel (self : PubSubManager) (channel_id : String) :
    Nat × PubSubManager :=
  match alookup self.channels channel_id with
  | some cid => (cid, self)
  | none =>
      let ch :=
        if self.use_redis && self.has_redis_client then
          RedisPubSubChannel.init channel_id true self.redis_channel_pfx
        else
          PubSubChannel.init channel_id
      let cid := self.nextId
      (cid, { self with
              nextId := cid + 1
              store := self.store ++ [(cid, ch)]
              channels := self.channels ++ [(channel_id, cid)] })

/-- `PubSubManager.get_channel`. -/
def PubSubManager.get_channel (self : PubSubManager) (channel_id : String) : Option Nat :=
  alookup self.channels channel_id

/-- `PubSubManager.remove_channel`: drops the `dict` entry; the channel
object itself (and any listener it started) is not touched. -/
def PubSubManager.remove_channel (self : PubSubManager) (channel_id : String) : PubSubManager :=
  { self with channels := self.channels.filter (fun p => p.1 != channel_id) }

/-- `PubSubManager.list_channels`. -/
def PubSubManager.list_channels (self : PubSubManager) : List String :=
  self.channels.map (fun p => p.1)

/-- The channel object a manager id refers to. -/
def PubSubManager.channelObj (self : PubSubManager) (cid : Nat) : Option PubSubChannel :=
  alookup self.store cid

/-- Allocation well-formedness: every stored topic id was allocated below the
counter (holds for every manager built by the modelled operations). -/
def managerWF (m : PubSubManager) : Bool :=
  m.channels.all (fun p => p.2 < m.nextId)

/-- How many `deliver` events a publish produced for the given callback. -/
def deliveryCount (evs : List Event) (sid : SubId) (isAsync : Bool) : Nat :=
  evs.countP (fun e =>
    match e with
    | .deliver s a _ _ => s == sid && a == isAsync
    | _ => false)

/-! ### Helper lemmas -/

theorem appendBounded_eq_rtake (h : List PyVal) (n : Nat) (hn : 0 < n) (m : PyVal) :
    appendBounded h n m = (h ++ [m]).rtake n := by
  have hne : n ≠ 0 := Nat.pos_iff_ne_zero.mp hn
  by_cases hgt : (h ++ [m]).length > n
  · rw [appendBounded, if_pos hgt, pySliceLast, if_neg hne, List.rtake]
  · have h0 : (h ++ [m]).length - n = 0 := Nat.sub_eq_zero_of_le (Nat.le_of_not_lt hgt)
    rw [appendBounded, if_neg hgt, List.rtake, h0, List.drop_zero]

theorem rtake_length_le {α : Type} (l : List α) (n : Nat) : (l.rtake n).length ≤ n := by
  unfold List.rtake
  simp only [List.length_drop]
  omega

theorem rtake_append_rtake {α : Type} (n : Nat) (l ms : List α) :
    ((l.rtake n) ++ ms).rtake n = (l ++ ms).rtake n := by
  simp only [List.rtake_eq_reverse_take_reverse, List.reverse_append, List.reverse_reverse,
    List.take_append_eq_append_take, List.take_take, List.length_reverse]
  have hmin : min (n - ms.length) n = n - ms.length := Nat.min_eq_left (Nat.sub_le n ms.length)
  rw [hmin]

theorem publishChanOnly_eq (c : PubSubChannel) (env : SubEnv) (m : PyVal) :
    publishChanOnly c env m
      = { c with history := appendBounded c.history c.max_history_length m } := rfl

theorem publishSeq_history (env : SubEnv) (msgs : List PyVal) :
    ∀ c : PubSubChannel, 0 < c.max_history_length →
      c.history.length ≤ c.max_history_length →
      (publishSeq c env msgs).history
        = (c.history ++ msgs).rtake c.max_history_length := by
  induction msgs with
  | nil =>
      intro c hn hl
      change c.history = _
      rw [List.append_nil]
      change c.history = c.history.drop (c.history.length - c.max_history_length)
      rw [Nat.sub_eq_zero_of_le hl, List.drop_zero]
  | cons m ms ih =>
      intro c hn hl
      have hstep : publishSeq c env (m :: ms)
          = publishSeq { c with history := appendBounded c.history c.max_history_length m }
              env ms := rfl
      have hlen : (appendBounded c.history c.max_history_length m).length
          ≤ c.max_history_length := by
        rw [appendBounded_eq_rtake _ _ hn]
        exact rtake_length_le _ _
      rw [hstep, ih { c with history := appendBounded c.history c.max_history_length m } hn hlen]
      change (appendBounded c.history c.max_history_length m ++ ms).rtake c.max_history_length
        = (c.history ++ m :: ms).rtake c.max_history_length
      rw [appendBounded_eq_rtake _ _ hn, rtake_append_rtake, List.append_assoc]
      rfl

/-! ### Claim theorems -/

/-- **C1**: publishing `m1, ..., mk` on a channel leaves `history` equal to
the whole sequence when `k ≤ max_history` (100 by default), and to the last
`max_history` messages in publish order when `k > max_history`; after every
publish of the sequence `len(history) ≤ max_history` holds. -/
theorem publish_history_bounded (cid : String) (env : SubEnv)
    (msgs : List PyVal) (k : Nat) :
    (publishSeq (PubSubChannel.init cid) env msgs).history
        = (if msgs.length ≤ 100 then msgs else msgs.drop (msgs.length - 100)) ∧
    ((publishSeq (PubSubChannel.init cid) env (msgs.take k)).history).length ≤ 100 := by
  have base : ∀ ms : List PyVal,
      (publishSeq (PubSubChannel.init cid) env ms).history = ms.rtake 100 := by
    intro ms
    have h := publishSeq_history env ms (PubSubChannel.init cid)
      (by simp [PubSubChannel.init]) (by simp [PubSubChannel.init])
    simpa [PubSubChannel.init] using h
  constructor
  · rw [base msgs]
    by_cases hle : msgs.length ≤ 100
    · have h0 : msgs.length - 100 = 0 := Nat.sub_eq_zero_of_le hle
      rw [if_pos hle, List.rtake, h0, List.drop_zero]
    · rw [if_neg hle, List.rtake]
  · rw [base (msgs.take k)]
    exact rtake_length_le _ _

/-- **C10**: every `publish` appends the message to `history` before any
subscriber is invoked: the first recorded effect is the history assignment,
every later effect of the call is a subscriber delivery, and the message is
in `history` afterwards — for every channel state and every subscriber
behaviour (no subscribers, or all of them raising, included). -/
theorem publish_appends_history_first (c : PubSubChannel) (env : SubEnv) (m : PyVal) :
    ∃ c' evs, PubSubChannel.publish c env m = .ok (c', evs) ∧
      m ∈ c'.history ∧
      ∃ rest, evs = Event.histSet c'.history :: rest ∧
        ∀ e ∈ rest, ∃ sid isAsync raised, e = Event.deliver sid isAsync m raised := by
  refine ⟨_, _, rfl, ?_, ?_⟩
  · show m ∈ appendBounded c.history c.max_history_length m
    rw [appendBounded]
    by_cases hgt : (c.history ++ [m]).length > c.max_history_length
    · rw [if_pos hgt, pySliceLast]
      by_cases h0 : c.max_history_length = 0
      · rw [if_pos h0]
        simp
      · rw [if_neg h0]
        have hlen : (c.history ++ [m]).length - c.max_history_length ≤ c.history.length := by
          simp only [List.length_append, List.length_cons, List.length_nil]
          omega
        rw [List.drop_append_of_le_length hlen]
        simp
    · rw [if_neg hgt]
      simp
  · refine ⟨_, rfl, ?_⟩
    intro e he
    rcases List.mem_append.mp he with h | h
    · rcases List.mem_map.mp h with ⟨sid, _, rfl⟩
      unfold deliverSync
      cases callSubscriber env sid m with
      | ok _ => exact ⟨sid, false, false, rfl⟩
      | error _ => exact ⟨sid, false, true, rfl⟩
    · rcases List.mem_map.mp h with ⟨sid, _, rfl⟩
      unfold deliverAsync
      cases callAsyncSubscriber env sid m with
      | ok _ => exact ⟨sid, true, false, rfl⟩
      | error _ => exact ⟨sid, true, true, rfl⟩

theorem deliverSync_eq (env : SubEnv) (m : PyVal) (sid : SubId) :
    deliverSync env m sid = Event.deliver sid false m (env.raisesOn sid m) := by
  cases h : env.raisesOn sid m <;> simp [deliverSync, callSubscriber, h]

theorem deliverAsync_eq (env : SubEnv) (m : PyVal) (sid : SubId) :
    deliverAsync env m sid = Event.deliver sid true m (env.araisesOn sid m) := by
  cases h : env.araisesOn sid m <;> simp [deliverAsync, callAsyncSubscriber, h]

/-- **C2**: on any channel, a publish of `A` never raises even when some
subscriber callbacks raise on `A`: every registered subscriber (synchronous
and asynchronous) gets an invocation record for `A`, and the next publish of
`B` again reaches every subscriber, the one that raised included. -/
theorem publish_isolates_subscriber_failures (c : PubSubChannel) (env : SubEnv)
    (A B : PyVal) :
    ∃ c1 evs1 c2 evs2,
      PubSubChannel.publish c env A = .ok (c1, evs1) ∧
      PubSubChannel.publish c1 env B = .ok (c2, evs2) ∧
      (∀ sid, sid ∈ c.subscribers →
        Event.deliver sid false A (env.raisesOn sid A) ∈ evs1 ∧
        Event.deliver sid false B (env.raisesOn sid B) ∈ evs2) ∧
      (∀ sid, sid ∈ c.async_subscribers →
        Event.deliver sid true A (env.araisesOn sid A) ∈ evs1 ∧
        Event.deliver sid true B (env.araisesOn sid B) ∈ evs2) := by
  refine ⟨_, _, _, _, rfl, rfl, ?_, ?_⟩
  · intro sid hs
    constructor
    · apply List.mem_cons_of_mem
      apply List.mem_append_left
      rw [← deliverSync_eq env A sid]
      exact List.mem_map_of_mem _ hs
    · apply List.mem_cons_of_mem
      apply List.mem_append_left
      rw [← deliverSync_eq env B sid]
      exact List.mem_map_of_mem _ hs
  · intro sid hs
    constructor
    · apply List.mem_cons_of_mem
      apply List.mem_append_right
      rw [← deliverAsync_eq env A sid]
      exact List.mem_map_of_mem _ hs
    · apply List.mem_cons_of_mem
      apply List.mem_append_right
      rw [← deliverAsync_eq env B sid]
      exact List.mem_map_of_mem _ hs

/-- Witness for C2: two sync subscribers, number 1 raising on everything;
subscriber 2 still receives `"A"`, and both receive `"B"` next. -/
theorem publish_isolates_subscriber_failures_witness :
    ∃ c1 evs1 c2 evs2,
      PubSubChannel.publish (((PubSubChannel.init "t").subscribe 1).subscribe 2)
          ⟨fun sid _ => sid == 1, fun _ _ => false⟩ (.pyStr "A") = .ok (c1, evs1) ∧
      PubSubChannel.publish c1
          ⟨fun sid _ => sid == 1, fun _ _ => false⟩ (.pyStr "B") = .ok (c2, evs2) ∧
      Event.deliver 1 false (.pyStr "A") true ∈ evs1 ∧
      Event.deliver 2 false (.pyStr "A") false ∈ evs1 ∧
      Event.deliver 1 false (.pyStr "B") true ∈ evs2 ∧
      Event.deliver 2 false (.pyStr "B") false ∈ evs2 := by
  obtain ⟨c1, evs1, c2, evs2, h1, h2, hsync, _⟩ :=
    publish_isolates_subscriber_failures
      (((PubSubChannel.init "t").subscribe 1).subscribe 2)
      ⟨fun sid _ => sid == 1, fun _ _ => false⟩ (.pyStr "A") (.pyStr "B")
  exact ⟨c1, evs1, c2, evs2, h1, h2,
    (hsync 1 (by decide)).1, (hsync 2 (by decide)).1,
    (hsync 1 (by decide)).2, (hsync 2 (by decide)).2⟩

theorem setAdd_mem_self (l : List SubId) (x : SubId) : x ∈ setAdd l x := by
  unfold setAdd
  by_cases h : x ∈ l
  · rwa [if_pos h]
  · rw [if_neg h]
    simp

theorem setAdd_idem (l : List SubId) (x : SubId) : setAdd (setAdd l x) x = setAdd l x := by
  unfold setAdd
  rw [if_pos]
  exact setAdd_mem_self l x

theorem setDiscard_of_not_mem (l : List SubId) (x : SubId) (h : x ∉ l) :
    setDiscard l x = l := by
  unfold setDiscard
  apply List.filter_eq_self.mpr
  intro a ha
  have : a ≠ x := fun hax => h (hax ▸ ha)
  simpa using this

/-- **C7**: subscriber registration has set semantics for both the
synchronous and the asynchronous set: a duplicate `subscribe` leaves the
channel unchanged; `unsubscribe` of an unregistered callback is a no-op (and
raises nothing); and a publish on a channel with duplicate-free subscriber
sets invokes a registered callback exactly once. -/
theorem subscribe_set_semantics (c cu : PubSubChannel) (sid sidu : SubId)
    (env : SubEnv) (m : PyVal) :
    (c.subscribe sid).subscribe sid = c.subscribe sid ∧
    (c.subscribe_async sid).subscribe_async sid = c.subscribe_async sid ∧
    (sidu ∉ cu.subscribers → cu.unsubscribe sidu = cu) ∧
    (sidu ∉ cu.async_subscribers → cu.unsubscribe_async sidu = cu) ∧
    (c.subscribers.Nodup → sid ∈ c.subscribers →
      ∀ c' evs, PubSubChannel.publish c env m = .ok (c', evs) →
        deliveryCount evs sid false = 1) ∧
    (c.async_subscribers.Nodup → sid ∈ c.async_subscribers →
      ∀ c' evs, PubSubChannel.publish c env m = .ok (c', evs) →
        deliveryCount evs sid true = 1) := by
  refine ⟨?_, ?_, ?_, ?_, ?_, ?_⟩
  · simp [PubSubChannel.subscribe, setAdd_idem]
  · simp [PubSubChannel.subscribe_async, setAdd_idem]
  · intro h
    simp [PubSubChannel.unsubscribe, setDiscard_of_not_mem _ _ h]
  · intro h
    simp [PubSubChannel.unsubscribe_async, setDiscard_of_not_mem _ _ h]
  · intro hnd hmem c' evs hpub
    have hevs : evs = Event.histSet (appendBounded c.history c.max_history_length m) ::
        (c.subscribers.map (deliverSync env m) ++
         c.async_subscribers.map (deliverAsync env m)) := by
      have := hpub
      unfold PubSubChannel.publish at this
      injection this with h'
      injection h' with _ h2
      exact h2.symm
    subst hevs
    unfold deliveryCount
    rw [List.countP_cons]
    simp only [List.countP_append]
    rw [List.countP_map, List.countP_map]
    have hsync : c.subscribers.countP
        ((fun e => match e with
          | Event.deliver s a _ _ => s == sid && a == false
          | _ => false) ∘ deliverSync env m) = 1 := by
      have hfun : ∀ s : SubId, ((fun e => match e with
          | Event.deliver s a _ _ => s == sid && a == false
          | _ => false) ∘ deliverSync env m) s = (s == sid) := by
        intro s
        simp [Function.comp, deliverSync_eq]
      rw [List.countP_congr (fun s _ => by rw [hfun s])]
      rw [← List.count]
      exact List.count_eq_one_of_mem hnd hmem
    have hasync : c.async_subscribers.countP
        ((fun e => match e with
          | Event.deliver s a _ _ => s == sid && a == false
          | _ => false) ∘ deliverAsync env m) = 0 := by
      apply List.countP_eq_zero.mpr
      intro s _
      simp [Function.comp, deliverAsync_eq]
    rw [hsync, hasync]
    rfl
  · intro hnd hmem c' evs hpub
    have hevs : evs = Event.histSet (appendBounded c.history c.max_history_length m) ::
        (c.subscribers.map (deliverSync env m) ++
         c.async_subscribers.map (deliverAsync env m)) := by
      have := hpub
      unfold PubSubChannel.publish at this
      injection this with h'
      injection h' with _ h2
      exact h2.symm
    subst hevs
    unfold deliveryCount
    rw [List.countP_cons]
    simp only [List.countP_append]
    rw [List.countP_map, List.countP_map]
    have hsync : c.subscribers.countP
        ((fun e => match e with
          | Event.deliver s a _ _ => s == sid && a == true
          | _ => false) ∘ deliverSync env m) = 0 := by
      apply List.countP_eq_zero.mpr
      intro s _
      simp [Function.comp, deliverSync_eq]
    have hasync : c.async_subscribers.countP
        ((fun e => match e with
          | Event.deliver s a _ _ => s == sid && a == true
          | _ => false) ∘ deliverAsync env m) = 1 := by
      have hfun : ∀ s : SubId, ((fun e => match e with
          | Event.deliver s a _ _ => s == sid && a == true
          | _ => false) ∘ deliverAsync env m) s = (s == sid) := by
        intro s
        simp [Function.comp, deliverAsync_eq]
      rw [List.countP_congr (fun s _ => by rw [hfun s])]
      rw [← List.count]
      exact List.count_eq_one_of_mem hnd hmem
    rw [hsync, hasync]
    rfl

/-- Witness for C7: a channel with sync subscriber 1 and async subscriber 1;
duplicate subscription collapses, unsubscribing the absent callback 5 is a
no-op, and a publish delivers exactly once to each. -/
theorem subscribe_set_semantics_witness :
    (((PubSubChannel.init "t").subscribe 1).subscribe 1 = (PubSubChannel.init "t").subscribe 1) ∧
    ((PubSubChannel.init "u").unsubscribe 5 = PubSubChannel.init "u") ∧
    (∀ c' evs, PubSubChannel.publish (((PubSubChannel.init "t").subscribe 1).subscribe_async 1)
        ⟨fun _ _ => false, fun _ _ => false⟩ .pyNone = .ok (c', evs) →
      deliveryCount evs 1 false = 1 ∧ deliveryCount evs 1 true = 1) := by
  have h1 := subscribe_set_semantics (PubSubChannel.init "t") (PubSubChannel.init "u")
    1 5 ⟨fun _ _ => false, fun _ _ => false⟩ .pyNone
  have h2 := subscribe_set_semantics (((PubSubChannel.init "t").subscribe 1).subscribe_async 1)
    (PubSubChannel.init "u") 1 5 ⟨fun _ _ => false, fun _ _ => false⟩ .pyNone
  refine ⟨h1.1, (h1.2.2.1 (by decide)), ?_⟩
  intro c' evs hpub
  exact ⟨h2.2.2.2.2.1 (by decide) (by decide) c' evs hpub,
         h2.2.2.2.2.2 (by decide) (by decide) c' evs hpub⟩

theorem readinessAux_never (subscribed : Nat → Bool)
    (h : ∀ n, subscribed n = false) :
    ∀ rem check, readinessAux subscribed check rem = .gaveUp (check + rem) := by
  intro rem
  induction rem with
  | zero =>
      intro check
      unfold readinessAux
      rw [h check]
      rfl
  | succ r ih =>
      intro check
      unfold readinessAux
      rw [h check]
      simp only [Bool.false_eq_true, if_false]
      rw [ih (check + 1)]
      congr 1
      omega

theorem readinessAux_ready (subscribed : Nat → Bool) (k : Nat) :
    ∀ rem check, readinessAux subscribed check rem = .ready k → subscribed k = true := by
  intro rem
  induction rem with
  | zero =>
      intro check hr
      unfold readinessAux at hr
      by_cases h : subscribed check
      · rw [if_pos h] at hr
        injection hr with hk
        rwa [← hk]
      · rw [if_neg h] at hr
        exact absurd hr (by simp)
  | succ r ih =>
      intro check hr
      unfold readinessAux at hr
      by_cases h : subscribed check
      · rw [if_pos h] at hr
        injection hr with hk
        rwa [← hk]
      · rw [if_neg h] at hr
        exact ih (check + 1) hr

/-- **C8**: when the broker subscription never reports ready, the listener's
readiness-wait loop gives up after its bounded budget of 10 retries (10
sleeps) instead of raising or spinning forever, and the message-consumption
loop is entered only at a poll where the subscription actually reported
ready — so no message poll ever precedes readiness. -/
theorem listener_readiness_bounded (subscribed : Nat → Bool) (k : Nat) :
    ((∀ n, subscribed n = false) →
      listener_loop_readiness subscribed = .gaveUp 10) ∧
    (listener_loop_readiness subscribed = .ready k → subscribed k = true) := by
  constructor
  · intro h
    unfold listener_loop_readiness
    rw [readinessAux_never subscribed h 10 0]
  · intro h
    exact readinessAux_ready subscribed k 10 0 h

/-- Witness for C8: a subscription that never becomes ready makes the
listener give up after exactly 10 retries. -/
theorem listener_readiness_bounded_witness :
    listener_loop_readiness (fun _ => false) = .gaveUp 10 :=
  (listener_readiness_bounded (fun _ => false) 0).1 (fun _ => rfl)

theorem alookup_append_none {κ α : Type} [DecidableEq κ] (l : List (κ × α)) (t : κ) (v : α)
    (h : alookup l t = none) : alookup (l ++ [(t, v)]) t = some v := by
  induction l with
  | nil => simp [alookup]
  | cons p rest ih =>
      obtain ⟨k, w⟩ := p
      rw [List.cons_append]
      unfold alookup at h ⊢
      by_cases hk : k = t
      · rw [if_pos hk] at h
        exact absurd h (by simp)
      · rw [if_neg hk] at h ⊢
        exact ih h

theorem alookup_filter_self {α : Type} (l : List (String × α)) (t : String) :
    alookup (l.filter (fun p => p.1 != t)) t = none := by
  induction l with
  | nil => rfl
  | cons p rest ih =>
      obtain ⟨k, v⟩ := p
      rw [List.filter_cons]
      by_cases hk : k = t
      · subst hk
        simp only [bne_self_eq_false]
        simpa using ih
      · have hb : ((k, v).1 != t) = true := by simpa using hk
        rw [hb]
        simp only [if_true]
        unfold alookup
        rw [if_neg hk]
        exact ih

theorem alookup_mem {κ α : Type} [DecidableEq κ] (l : List (κ × α)) (t : κ) (v : α)
    (h : alookup l t = some v) : (t, v) ∈ l := by
  induction l with
  | nil => simp [alookup] at h
  | cons p rest ih =>
      obtain ⟨k, w⟩ := p
      unfold alookup at h
      by_cases hk : k = t
      · rw [if_pos hk] at h
        injection h with hv
        subst hk
        subst hv
        exact List.mem_cons_self _ _
      · rw [if_neg hk] at h
        exact List.mem_cons_of_mem _ (ih h)

theorem get_or_create_lookup_some (m : PubSubManager) (t : String) (cid : Nat)
    (h : alookup m.channels t = some cid) :
    m.get_or_create_channel t = (cid, m) := by
  unfold PubSubManager.get_or_create_channel
  rw [h]

theorem get_or_create_lookup_none (m : PubSubManager) (t : String)
    (h : alookup m.channels t = none) :
    (m.get_or_create_channel t).1 = m.nextId ∧
    (m.get_or_create_channel t).2.channels = m.channels ++ [(t, m.nextId)] ∧
    (m.get_or_create_channel t).2.nextId = m.nextId + 1 := by
  unfold PubSubManager.get_or_create_channel
  rw [h]
  exact ⟨rfl, rfl, rfl⟩

/-- **C4**: `get_or_create_channel` twice on the same topic returns the same
channel instance and leaves the registry unchanged (so there is at most one
instance per topic), while `remove_channel` followed by
`get_or_create_channel` yields a distinct, freshly allocated instance. -/
theorem get_or_create_channel_identity (m : PubSubManager) (t : String)
    (hwf : managerWF m = true) :
    (m.get_or_create_channel t).2.get_or_create_channel t = m.get_or_create_channel t ∧
    ((((m.get_or_create_channel t).2.remove_channel t).get_or_create_channel t).1
      ≠ (m.get_or_create_channel t).1) := by
  cases h : alookup m.channels t with
  | some cid =>
      have hg := get_or_create_lookup_some m t cid h
      have hcid : cid < m.nextId := by
        have hmem := alookup_mem m.channels t cid h
        have := List.all_eq_true.mp hwf _ hmem
        exact of_decide_eq_true this
      rw [hg]
      constructor
      · exact hg
      · have hnone : alookup (m.remove_channel t).channels t = none :=
          alookup_filter_self _ _
        have h3 := (get_or_create_lookup_none _ t hnone).1
        rw [h3]
        show m.nextId ≠ cid
        omega
  | none =>
      obtain ⟨h1a, h1b, h1c⟩ := get_or_create_lookup_none m t h
      constructor
      · have hsome : alookup ((m.get_or_create_channel t).2).channels t
            = some ((m.get_or_create_channel t).1) := by
          rw [h1b, h1a]
          exact alookup_append_none _ _ _ h
        rw [get_or_create_lookup_some _ _ _ hsome]
      · have hnone : alookup ((m.get_or_create_channel t).2.remove_channel t).channels t
            = none := alookup_filter_self _ _
        have h3 := (get_or_create_lookup_none _ t hnone).1
        rw [h3]
        show ((m.get_or_create_channel t).2.remove_channel t).nextId
          ≠ (m.get_or_create_channel t).1
        have hremn : ((m.get_or_create_channel t).2.remove_channel t).nextId
            = ((m.get_or_create_channel t).2).nextId := rfl
        rw [hremn, h1c, h1a]
        omega

/-- Witness for C4 on a concrete freshly constructed registry. -/
theorem get_or_create_channel_identity_witness :
    ((PubSubManager.createOk false none false false).get_or_create_channel "t").2.get_or_create_channel "t"
      = (PubSubManager.createOk false none false false).get_or_create_channel "t" ∧
    (((((PubSubManager.createOk false none false false).get_or_create_channel "t").2.remove_channel "t").get_or_create_channel "t").1
      ≠ ((PubSubManager.createOk false none false false).get_or_create_channel "t").1) :=
  get_or_create_channel_identity (PubSubManager.createOk false none false false) "t" rfl

theorem create_always_ok (u : Bool) (cfg : Option (List (String × PyVal)))
    (ra cf : Bool) :
    PubSubManager.create u cfg ra cf = .ok (PubSubManager.createOk u cfg ra cf) := by
  unfold PubSubManager.createOk PubSubManager.create
  by_cases h1 : (u && ra) = true
  · by_cases h2 : cf = true
    · simp [h1, h2]
    · simp [h1, h2]
  · simp [h1]

theorem createOk_base_fields (u : Bool) (cfg : Option (List (String × PyVal)))
    (ra cf : Bool) :
    (PubSubManager.createOk u cfg ra cf).channels = [] ∧
    (PubSubManager.createOk u cfg ra cf).store = [] ∧
    (PubSubManager.createOk u cfg ra cf).nextId = 0 := by
  unfold PubSubManager.createOk PubSubManager.create
  by_cases h1 : (u && ra) = true
  · by_cases h2 : cf = true
    · simp [h1, h2]
    · simp [h1, h2]
  · simp [h1]

theorem createOk_degraded (u : Bool) (cfg : Option (List (String × PyVal)))
    (ra cf : Bool) (hdeg : ra = false ∨ cf = true) :
    (PubSubManager.createOk u cfg ra cf).use_redis = false ∧
    (PubSubManager.createOk u cfg ra cf).has_redis_client = false := by
  unfold PubSubManager.createOk PubSubManager.create
  rcases hdeg with h | h
  · subst h
    simp
  · subst h
    by_cases h1 : (u && ra) = true
    · simp [h1]
    · simp [h1]

theorem get_or_create_fresh_plain (m : PubSubManager) (t : String)
    (hch : m.channels = []) (hst : m.store = [])
    (hur : m.use_redis = false) :
    ((m.get_or_create_channel t).2).channelObj ((m.get_or_create_channel t).1)
      = some (PubSubChannel.init t) := by
  have hnone : alookup m.channels t = none := by
    rw [hch]
    rfl
  unfold PubSubManager.get_or_create_channel
  rw [hnone]
  show alookup (m.store ++ [(m.nextId, _)]) m.nextId = _
  rw [hur]
  rw [hst]
  simp [alookup]

/-- **C5**: constructing the registry never raises, whatever the broker
environment; when the broker library is unavailable (`ra = false`) or client
construction fails (`cf = true`), the registry comes up in local-only mode
(no Redis flag, no client), `get_or_create_channel` stores a plain local
`PubSubChannel`, and such a channel's dispatched `publish` is exactly the
base-class local publish. -/
theorem manager_construction_never_raises (u : Bool)
    (cfg : Option (List (String × PyVal))) (ra cf : Bool) :
    ∃ m, PubSubManager.create u cfg ra cf = .ok m ∧
      ((ra = false ∨ cf = true) →
        m.use_redis = false ∧ m.has_redis_client = false ∧
        ∀ t, ((m.get_or_create_channel t).2).channelObj ((m.get_or_create_channel t).1)
              = some (PubSubChannel.init t)) ∧
      (∀ t env broker msg,
        channelPublish (PubSubChannel.init t) env broker msg
          = PubSubChannel.publish (PubSubChannel.init t) env msg) := by
  refine ⟨PubSubManager.createOk u cfg ra cf, create_always_ok u cfg ra cf, ?_, ?_⟩
  · intro hdeg
    obtain ⟨hur, hcl⟩ := createOk_degraded u cfg ra cf hdeg
    obtain ⟨hch, hst, _⟩ := createOk_base_fields u cfg ra cf
    exact ⟨hur, hcl, fun t => get_or_create_fresh_plain _ t hch hst hur⟩
  · intro t env broker msg
    rfl

/-- Witness for C5: broker requested but the client library missing — the
registry still constructs, degraded to local-only, and hands out a plain
channel. -/
theorem manager_construction_never_raises_witness :
    ∃ m, PubSubManager.create true none false false = .ok m ∧
      m.use_redis = false ∧ m.has_redis_client = false ∧
      ((m.get_or_create_channel "topic").2).channelObj
          ((m.get_or_create_channel "topic").1) = some (PubSubChannel.init "topic") := by
  obtain ⟨m, hok, hdeg, _⟩ := manager_construction_never_raises true none false false
  obtain ⟨h1, h2, h3⟩ := hdeg (Or.inl rfl)
  exact ⟨m, hok, h1, h2, h3 "topic"⟩

/-- **C6**: on a broker-backed channel, `publish` performs the complete local
fan-out (history append included) first, and only then attempts exactly one
broker send; whatever the broker does — including failing — `publish`
returns without raising, with the local effects intact and no retry. -/
theorem redis_publish_after_local (c : PubSubChannel) (env : SubEnv)
    (broker : String → String → Bool) (m : PyVal) (hc : c.hasRedisClient = true) :
    ∃ cL evsL,
      PubSubChannel.publish c env m = .ok (cL, evsL) ∧
      cL.history = appendBounded c.history c.max_history_length m ∧
      evsL.countP (fun e => match e with
        | Event.brokerSend _ _ _ => true
        | _ => false) = 0 ∧
      (∀ payload, serializeMessage m = .ok payload →
        RedisPubSubChannel.publish c env broker m
          = .ok (cL, evsL ++ [Event.brokerSend c.redis_channel payload
              (broker c.redis_channel payload)])) ∧
      (∀ e, serializeMessage m = .error e →
        RedisPubSubChannel.publish c env broker m = .ok (cL, evsL)) := by
  refine ⟨_, _, rfl, rfl, ?_, ?_, ?_⟩
  · apply List.countP_eq_zero.mpr
    intro e he
    rcases List.mem_cons.mp he with h | h
    · subst h
      simp
    · rcases List.mem_append.mp h with h' | h'
      · rcases List.mem_map.mp h' with ⟨sid, _, rfl⟩
        rw [deliverSync_eq]
        simp
      · rcases List.mem_map.mp h' with ⟨sid, _, rfl⟩
        rw [deliverAsync_eq]
        simp
  · intro payload hser
    unfold RedisPubSubChannel.publish
    simp [PubSubChannel.publish, hc, hser, List.append_assoc]
  · intro e hser
    unfold RedisPubSubChannel.publish
    simp [PubSubChannel.publish, hc, hser]

/-- Witness for C6: a broker-backed channel whose broker send fails still
publishes locally and returns normally, with exactly one (failed) send. -/
theorem redis_publish_after_local_witness :
    ∃ cL evsL,
      PubSubChannel.publish (RedisPubSubChannel.init "t" true "mcp_agent:")
          ⟨fun _ _ => false, fun _ _ => false⟩ (.pyStr "x")
        = .ok (cL, evsL) ∧
      RedisPubSubChannel.publish (RedisPubSubChannel.init "t" true "mcp_agent:")
          ⟨fun _ _ => false, fun _ _ => false⟩ (fun _ _ => false) (.pyStr "x")
        = .ok (cL, evsL ++ [Event.brokerSend "mcp_agent:t" "\"x\"" false]) := by
  obtain ⟨cL, evsL, h1, _, _, h4, _⟩ :=
    redis_publish_after_local (RedisPubSubChannel.init "t" true "mcp_agent:")
      ⟨fun _ _ => false, fun _ _ => false⟩ (fun _ _ => false) (.pyStr "x") rfl
  exact ⟨cL, evsL, h1, h4 "\"x\"" rfl⟩

/-- Counterexample to **C3** as stated: a payload that is already text is
*not* passed through unchanged — the source applies `json.dumps` to strings
too, so publishing the text `hello` sends the quoted JSON form `"hello"`. -/
theorem serialize_text_not_passthrough :
    serializeMessage (.pyStr "hello") = .ok "\"hello\"" ∧
    ("\"hello\"" : String) ≠ "hello" := by
  constructor
  · rfl
  · decide

/-- **C3 amended**: every JSON-serializable built-in payload — structured
(dict/list) and scalar (string, int, bool, None) alike — is sent in its JSON
encoding (so a text payload goes out JSON-quoted, not raw); an object
exposing `to_dict` is JSON-encoded through it; an object without `to_dict`
is stringified with `str()`. -/
theorem serializeMessage_characterization (s r : String)
    (d : List (String × PyVal)) (items : List PyVal) (v : PyVal)
    (b : Bool) (i : Int) :
    serializeMessage (.pyStr s) = .ok (jsonQuote s) ∧
    serializeMessage (.pyDict d) = jsonDumps (.pyDict d) ∧
    serializeMessage (.pyList items) = jsonDumps (.pyList items) ∧
    serializeMessage (.pyObj r (some v)) = jsonDumps v ∧
    serializeMessage (.pyObj r none) = .ok r ∧
    serializeMessage (.pyBool b) = jsonDumps (.pyBool b) ∧
    serializeMessage (.pyInt i) = .ok (toString i) ∧
    serializeMessage .pyNone = .ok "null" := by
  refine ⟨rfl, rfl, rfl, rfl, ?_, rfl, ?_, ?_⟩ <;> simp [serializeMessage, pyToStr, jsonDumps]

theorem manager_created_channel (m : PubSubManager) (t : String)
    (hch : m.channels = []) (hst : m.store = []) :
    ∃ ch, ((m.get_or_create_channel t).2).channelObj ((m.get_or_create_channel t).1)
        = some ch ∧
      ch.max_history_length = 100 ∧ ch.history = [] := by
  have hnone : alookup m.channels t = none := by
    rw [hch]
    rfl
  unfold PubSubManager.get_or_create_channel
  rw [hnone]
  by_cases hcond : (m.use_redis && m.has_redis_client) = true
  · refine ⟨RedisPubSubChannel.init t true m.redis_channel_pfx, ?_, rfl, rfl⟩
    show alookup (m.store ++ [(m.nextId, _)]) m.nextId = _
    rw [hcond, hst]
    simp [alookup]
  · refine ⟨PubSubChannel.init t, ?_, rfl, rfl⟩
    show alookup (m.store ++ [(m.nextId, _)]) m.nextId = _
    rw [Bool.not_eq_true] at hcond
    rw [hcond, hst]
    simp [alookup]

/-- **C9 amended**: the registry exposes no `max_history` option — whatever
configuration it is constructed with, every channel it creates has its
history limit fixed at 100, and the history after any publish sequence stays
within 100 entries. -/
theorem manager_channels_max_history_100 (u : Bool)
    (cfg : Option (List (String × PyVal))) (ra cf : Bool) (t : String) :
    ∃ ch, (((PubSubManager.createOk u cfg ra cf).get_or_create_channel t).2).channelObj
        (((PubSubManager.createOk u cfg ra cf).get_or_create_channel t).1) = some ch ∧
      ch.max_history_length = 100 ∧
      ∀ env msgs, (publishSeq ch env msgs).history.length ≤ 100 := by
  obtain ⟨hch, hst, _⟩ := createOk_base_fields u cfg ra cf
  obtain ⟨ch, hobj, hmax, hhist⟩ :=
    manager_created_channel (PubSubManager.createOk u cfg ra cf) t hch hst
  refine ⟨ch, hobj, hmax, ?_⟩
  intro env msgs
  have h := publishSeq_history env msgs ch (by rw [hmax]; omega) (by rw [hhist]; simp)
  rw [h, hmax]
  exact rtake_length_le _ _

/-- Counterexample to **C9**: a registry constructed with `max_history = 5`
in its configuration still creates channels whose limit is 100 — after six
publishes the history holds six messages, not five. -/
theorem max_history_option_ignored :
    ∃ ch, (((PubSubManager.createOk false (some [("max_history", .pyInt 5)]) true false).get_or_create_channel "t").2).channelObj
        (((PubSubManager.createOk false (some [("max_history", .pyInt 5)]) true false).get_or_create_channel "t").1) = some ch ∧
      ch.max_history_length = 100 ∧
      (publishSeq ch ⟨fun _ _ => false, fun _ _ => false⟩
        [.pyInt 1, .pyInt 2, .pyInt 3, .pyInt 4, .pyInt 5, .pyInt 6]).history.length = 6 ∧
      ¬ (6 ≤ 5) := by
  refine ⟨PubSubChannel.init "t", rfl, rfl, rfl, by decide⟩
